import Mathlib

/-!
Verification of the meal-plan core of `concierge_app.py`.

The embedding translates the target-resolution and combinatorial-selection
engine of the source file into Lean:

* `MenuItem`, `Totals` — the data model (`MENU` records, summed nutrients);
* `score_combo`, `macro_targets`, `calorie_goal_from_tdee`,
  `calc_tdee_from_stats` — the pure numeric functions (lines 340-390);
* `pick_combo` — the randomized sampler (lines 392-408), with the random
  draws made explicit as an injectable stream `rnd : Nat -> List MenuItem`
  (each `rnd t` stands for the result of `random.sample(top_pool, k)` in
  trial `t`);
* `filter_menu`, `generate_plan` (lines 410-429);
* `resolveFromRequest` — `_resolve_from_request` (lines 663-702), up to and
  including everything it computes before calling `generate_plan`; parse
  failures that CPython would raise as uncaught exceptions are modelled as
  `Except.error`.

Python `float` arithmetic is modelled exactly over `ℚ`; Python `round`
(banker's rounding, half to even) is `pyRound`.
-/

/-- A validated menu record: the `name`/`chain`/`cuisine`/`K`/`P`/`C`/`F`
fields of an entry of `MENU` (after `_coerce_item` has made the four
nutrient fields ints). -/
structure MenuItem where
  name : String
  chain : String
  cuisine : String
  K : Int
  P : Int
  C : Int
  F : Int
deriving DecidableEq, Repr

/-- The totals dictionary `{"K": …, "P": …, "C": …, "F": …}` computed by
`score_combo` and returned by `pick_combo`. -/
structure Totals where
  K : Int
  P : Int
  C : Int
  F : Int
deriving DecidableEq, Repr

/-- Python 3 `round` to an integer: round half to even (banker's rounding). -/
def pyRound (q : ℚ) : ℤ :=
  let f := ⌊q⌋
  let frac := q - f
  if frac < 1/2 then f
  else if 1/2 < frac then f + 1
  else if f % 2 = 0 then f else f + 1

/-- Python `str.lower()` (ASCII case folding suffices for this program's data). -/
def strLower (s : String) : String := ⟨s.data.map Char.toLower⟩

/-- Python `str.startswith(p)`. -/
def strStartsWith (s p : String) : Bool := p.data.isPrefixOf s.data

/-- Python truthiness of an optional string request parameter:
`None` and the empty string are falsy. -/
def truthy (o : Option String) : Bool :=
  match o with
  | none => false
  | some s => s ≠ ""

/-- `lb_to_kg` (line 349). -/
def lb_to_kg (lb : ℚ) : ℚ := lb * (45359237 / 100000000)

/-- `in_to_cm` (line 350). -/
def in_to_cm (i : ℚ) : ℚ := i * (254/100)

/-- `mifflin_st_jeor` (lines 340-342). -/
def mifflin_st_jeor (sex : Option String) (weight_kg height_cm : ℚ) (age : ℤ) : ℚ :=
  let s : ℚ :=
    if truthy sex && strStartsWith (strLower (sex.getD "")) "m" then 5 else -161
  10 * weight_kg + (625/100) * height_cm - 5 * age + s

/-- `activity_multiplier` (lines 344-347). -/
def activity_multiplier (level : Option String) : ℚ :=
  let l := strLower (level.getD "")
  if l = "sedentary" then 12/10
  else if l = "light" then 1375/1000
  else if l = "moderate" then 155/100
  else if l = "very" then 1725/1000
  else if l = "athlete" then 19/10
  else 155/100

/-- `calc_tdee_from_stats` (lines 352-354). -/
def calc_tdee_from_stats (sex : Option String) (weight_lb height_in : ℚ) (age : ℤ)
    (activity : Option String) : ℤ :=
  let bmr := mifflin_st_jeor sex (lb_to_kg weight_lb) (in_to_cm height_in) age
  pyRound (bmr * activity_multiplier activity)

/-- `goal = (goal or "loss25").lower()` — the goal-keyword normalization at
line 357. -/
def goalNorm (goal : Option String) : String :=
  strLower (match goal with
            | none => "loss25"
            | some s => if s = "" then "loss25" else s)

/-- `calorie_goal_from_tdee` (lines 356-361). -/
def calorie_goal_from_tdee (tdee : ℤ) (goal : Option String) : ℤ :=
  let g := goalNorm goal
  if g = "loss25" then pyRound ((tdee : ℚ) * (75/100))
  else if g = "maintain" then pyRound ((tdee : ℚ))
  else if g = "gain10" then pyRound ((tdee : ℚ) * (110/100))
  else pyRound ((tdee : ℚ) * (75/100))

/-- `score_combo` (lines 373-382): the multi-term penalty, returned together
with the summed totals. -/
def score_combo (picks : List MenuItem) (cal_target p_target c_target f_target : ℤ) :
    ℚ × Totals :=
  let K := (picks.map MenuItem.K).sum
  let P := (picks.map MenuItem.P).sum
  let C := (picks.map MenuItem.C).sum
  let F := (picks.map MenuItem.F).sum
  let cal_pen : ℚ := |(K : ℚ) - (cal_target : ℚ)| / 6
  let prot_short : ℤ := max 0 (p_target - P)
  let prot_pen : ℚ := (prot_short : ℚ) * (85/10)
  let fat_overshoot : ℚ := max 0 ((F : ℚ) - (f_target : ℚ) * (125/100))
  let carb_overshoot : ℚ := max 0 ((C : ℚ) - (c_target : ℚ) * (135/100))
  let macro_pen : ℚ := fat_overshoot * (7/10) + carb_overshoot * (3/10)
  let chains := (picks.map MenuItem.chain).dedup
  let variety_bonus : ℚ := -(4/10) * ((chains.length : ℚ) - 1)
  (cal_pen + prot_pen + macro_pen + variety_bonus, ⟨K, P, C, F⟩)

/-- `macro_targets` (lines 384-390): protein defaults to
`round(0.35·calories/4)`; the remainder is split 50/50 by calories between
carbs and fat. -/
def macro_targets (calories : ℤ) (protein_g : Option ℤ) : ℤ × ℤ × ℤ :=
  let p : ℤ :=
    match protein_g with
    | none => pyRound ((35/100 : ℚ) * (calories : ℚ) / 4)
    | some p => p
  let remaining_cal : ℤ := calories - p * 4
  let carbs_g : ℤ := pyRound (((remaining_cal : ℚ) * (5/10)) / 4)
  let fat_g : ℤ := pyRound (((remaining_cal : ℚ) * (5/10)) / 9)
  (p, carbs_g, fat_g)

/-- `filter_menu` (lines 410-414): sequential advisory filtering with
fallback to the full menu when the result is empty. -/
def filter_menu (menu : List MenuItem) (cuisine chain : Option String) : List MenuItem :=
  let out := menu
  let out := if truthy cuisine then
               out.filter (fun m => strStartsWith (strLower m.cuisine) (strLower (cuisine.getD "")))
             else out
  let out := if truthy chain then
               out.filter (fun m => strLower m.chain == strLower (chain.getD ""))
             else out
  if out.isEmpty then menu else out

/-- The per-item predicate of claim C4: the item's cuisine starts
(case-insensitively) with the cuisine string and its chain equals
(case-insensitively) the chain string, each filter active only when its
parameter is given (truthy). -/
def keepsItem (cuisine chain : Option String) (m : MenuItem) : Bool :=
  (match cuisine with
   | none => true
   | some cz => if cz = "" then true
                else strStartsWith (strLower m.cuisine) (strLower cz))
  && (match chain with
      | none => true
      | some ch => if ch = "" then true
                   else strLower m.chain == strLower ch)

/-- `pyRound` is within half a unit of its argument. -/
theorem pyRound_abs_le (q : ℚ) : |(pyRound q : ℚ) - q| ≤ 1/2 := by
  have h1 : (⌊q⌋ : ℚ) ≤ q := Int.floor_le q
  have h2 : q < ⌊q⌋ + 1 := Int.lt_floor_add_one q
  simp only [pyRound]
  split_ifs <;> (rw [abs_le]; push_cast; constructor <;> linarith)

/-- `pyRound` of a nonnegative rational is nonnegative. -/
theorem pyRound_nonneg (q : ℚ) (h : 0 ≤ q) : 0 ≤ pyRound q := by
  have hb := pyRound_abs_le q
  rw [abs_le] at hb
  have hq : (-1 : ℚ) < (pyRound q : ℚ) := by linarith
  have : (-1 : ℤ) < pyRound q := by exact_mod_cast hq
  omega

/-- The restricted pool of `pick_combo` (lines 393-394): sort the pool by
absolute calorie distance from `ideal = cal_target / max(1, meals_per_day)`
(Python's `sorted` is stable, as is insertion sort) and keep the first
`max(10, int(len(pool)*0.8))` items. -/
def topPoolD (pool : List MenuItem) (cal_target : ℤ) (meals_per_day : ℕ) : List MenuItem :=
  let ideal : ℚ := (cal_target : ℚ) / (max 1 meals_per_day : ℕ)
  (pool.insertionSort
      (fun a b => |(a.K : ℚ) - ideal| ≤ |(b.K : ℚ) - ideal|)).take
    (max 10 (pool.length * 4 / 5))

/-- The running best of the sampling loops: `best_score`, `best_combo`,
`best_meta` (line 395). -/
structure BestSt where
  score : ℚ
  combo : List MenuItem
  meta : Totals
deriving DecidableEq, Repr

/-- `s < best_score`, where an unset best (`best_score = inf`) is beaten by
any finite score. -/
def betterThan (s : ℚ) (best : Option BestSt) : Bool :=
  match best with
  | none => true
  | some b => s < b.score

/-- One iteration of the main trial loop of `pick_combo` (lines 397-400). -/
def trialStep (cal_target p_target c_target f_target : ℤ)
    (best : Option BestSt) (picks : List MenuItem) : Option BestSt :=
  let sm := score_combo picks cal_target p_target c_target f_target
  if betterThan sm.1 best then some ⟨sm.1, picks, sm.2⟩ else best

/-- The refinement loop of `pick_combo` (lines 402-407): up to 1500 further
draws, updating on strictly lower score, and breaking the moment the best
just updated is within 125 kcal of the target. -/
def refineLoop (cal_target p_target c_target f_target : ℤ) :
    BestSt → List (List MenuItem) → BestSt
  | best, [] => best
  | best, picks :: rest =>
    let sm := score_combo picks cal_target p_target c_target f_target
    if sm.1 < best.score then
      if |sm.2.K - cal_target| ≤ 125 then ⟨sm.1, picks, sm.2⟩
      else refineLoop cal_target p_target c_target f_target ⟨sm.1, picks, sm.2⟩ rest
    else refineLoop cal_target p_target c_target f_target best rest

/-- `TRIES = min(5000, max(1500, len(top_pool) * 250))` (line 396). -/
def triesFor (topLen : ℕ) : ℕ := min 5000 (max 1500 (topLen * 250))

/-- `pick_combo` (lines 392-408). The random draws are an explicit stream:
`rnd t` is the list `random.sample(top_pool, k)` produced in trial `t`
(the main loop consumes trials `0..TRIES-1`, the refinement pass trials
`TRIES..TRIES+1499`). Theorems about `pick_combo` assume each `rnd t` is a
genuine sample: `min(meals_per_day, len(top_pool))` elements of the
restricted pool. -/
def pick_combo (rnd : ℕ → List MenuItem) (pool : List MenuItem) (cal_target : ℤ)
    (meals_per_day : ℕ) (p_target c_target f_target : ℤ) :
    List MenuItem × Totals :=
  let top_pool := topPoolD pool cal_target meals_per_day
  let TRIES := triesFor top_pool.length
  let best := (List.range TRIES).foldl
    (fun b t => trialStep cal_target p_target c_target f_target b (rnd t)) none
  let best :=
    match best with
    | none => none
    | some b =>
      if 125 < |b.meta.K - cal_target| then
        some (refineLoop cal_target p_target c_target f_target b
          ((List.range 1500).map (fun t => rnd (TRIES + t))))
      else some b
  match best with
  | some b => (b.combo, b.meta)
  | none => ([], ⟨0, 0, 0, 0⟩)

/-- A day of the plan (`PlanDay`, lines 366-369 / 423). -/
structure PlanDay where
  items : List MenuItem
  K : Int
  P : Int
  C : Int
  F : Int
deriving DecidableEq, Repr

/-- The dictionary returned by `generate_plan` (lines 424-429). -/
structure Plan where
  days : ℕ
  cuisine : Option String
  chain : Option String
  meals_per_day : ℕ
  protein_target : ℤ
  carb_target : ℤ
  fat_target : ℤ
  plan : List PlanDay
deriving DecidableEq, Repr

/-- `generate_plan` (lines 416-429). The module-level catalog `MENU` is the
`menu` argument; `rnd d` is the draw stream used by day `d`'s `pick_combo`
call. -/
def generate_plan (rnd : ℕ → ℕ → List MenuItem) (menu : List MenuItem) (calories : ℤ)
    (cuisine chain : Option String) (days : ℕ) (protein_g_override : Option ℤ)
    (meals_per_day : ℕ) : Plan :=
  let pool := filter_menu menu cuisine chain
  let t := macro_targets calories protein_g_override
  let plan_days := (List.range days).map (fun d =>
    let pm := pick_combo (rnd d) pool calories meals_per_day t.1 t.2.1 t.2.2
    PlanDay.mk pm.1 pm.2.K pm.2.P pm.2.C pm.2.F)
  ⟨days, cuisine, chain, meals_per_day, t.1, t.2.1, t.2.2, plan_days⟩

/-- What it means for `s` to be a value `random.sample(pool, k)` can return:
`k` elements drawn from `pool`. -/
def isSampleOf (s pool : List MenuItem) (k : ℕ) : Prop :=
  s.length = k ∧ ∀ x ∈ s, x ∈ pool

/-- A trial either installs the drawn combo (with its score and totals) as
the new best or leaves the best untouched. -/
theorem trialStep_eq_or (cal p c f : ℤ) (b : Option BestSt) (d : List MenuItem) :
    trialStep cal p c f b d
        = some ⟨(score_combo d cal p c f).1, d, (score_combo d cal p c f).2⟩
      ∨ trialStep cal p c f b d = b := by
  rw [trialStep]
  split_ifs
  · left; rfl
  · right; rfl

/-- A trial never un-sets the best. -/
theorem trialStep_isSome (cal p c f : ℤ) (b : Option BestSt) (d : List MenuItem) :
    b.isSome = true → (trialStep cal p c f b d).isSome = true := by
  intro hb
  rcases trialStep_eq_or cal p c f b d with h | h <;> rw [h] <;> simp [hb]

/-- The first trial always sets the best (any score beats `inf`). -/
theorem trialStep_none_isSome (cal p c f : ℤ) (d : List MenuItem) :
    (trialStep cal p c f none d).isSome = true := by
  rw [trialStep]
  simp [betterThan]

/-- The main trial loop ends with a set best whenever it starts set or runs
at least one trial. -/
theorem foldl_trialStep_isSome (cal p c f : ℤ) (rnd : ℕ → List MenuItem) :
    ∀ (l : List ℕ) (b : Option BestSt), (b.isSome = true ∨ l ≠ []) →
      ((l.foldl (fun acc t => trialStep cal p c f acc (rnd t)) b)).isSome = true := by
  intro l
  induction l with
  | nil =>
    intro b hb
    simpa using hb.resolve_right (fun h => h rfl)
  | cons a l ih =>
    intro b _
    rw [List.foldl_cons]
    refine ih _ (Or.inl ?_)
    cases b with
    | none => exact trialStep_none_isSome cal p c f (rnd a)
    | some s => exact trialStep_isSome cal p c f (some s) (rnd a) rfl

/-- Any property that holds of every drawn candidate state is an invariant
of the main trial loop. -/
theorem foldl_trialStep_invariant (cal p c f : ℤ) (rnd : ℕ → List MenuItem)
    (P : BestSt → Prop) :
    ∀ (l : List ℕ),
      (∀ t ∈ l, P ⟨(score_combo (rnd t) cal p c f).1, rnd t,
                   (score_combo (rnd t) cal p c f).2⟩) →
      ∀ (b : Option BestSt), (∀ s, b = some s → P s) →
      ∀ s, l.foldl (fun acc t => trialStep cal p c f acc (rnd t)) b = some s → P s := by
  intro l
  induction l with
  | nil => intro _ b hb s hs; exact hb s hs
  | cons a l ih =>
    intro hl b hb s hs
    rw [List.foldl_cons] at hs
    refine ih (fun t ht => hl t (List.mem_cons_of_mem _ ht))
      (trialStep cal p c f b (rnd a)) ?_ s hs
    intro s2 hs2
    rcases trialStep_eq_or cal p c f b (rnd a) with h | h
    · rw [h] at hs2
      cases hs2
      exact hl a (List.mem_cons_self _ _)
    · rw [h] at hs2
      exact hb s2 hs2

/-- Any property that holds of every drawn candidate state is an invariant
of the refinement loop. -/
theorem refineLoop_invariant (cal p c f : ℤ) (P : BestSt → Prop) :
    ∀ (l : List (List MenuItem)),
      (∀ d ∈ l, P ⟨(score_combo d cal p c f).1, d, (score_combo d cal p c f).2⟩) →
      ∀ b, P b → P (refineLoop cal p c f b l) := by
  intro l
  induction l with
  | nil => intro _ b hb; simpa [refineLoop] using hb
  | cons d l ih =>
    intro hl b hb
    rw [refineLoop]
    split_ifs
    · exact hl d (List.mem_cons_self _ _)
    · exact ih (fun d2 hd2 => hl d2 (List.mem_cons_of_mem _ hd2)) _
        (hl d (List.mem_cons_self _ _))
    · exact ih (fun d2 hd2 => hl d2 (List.mem_cons_of_mem _ hd2)) b hb

set_option maxRecDepth 8000 in
/-- Core facts about `pick_combo` under a well-formed draw stream: the
returned combo has exactly `min(meals_per_day, len(top_pool))` items, and
the returned totals are the recomputed totals of the returned combo. -/
theorem pick_combo_spec (rnd : ℕ → List MenuItem) (pool : List MenuItem) (cal : ℤ)
    (m : ℕ) (p c f : ℤ)
    (hs : ∀ t, (rnd t).length = min m (topPoolD pool cal m).length) :
    (pick_combo rnd pool cal m p c f).1.length = min m (topPoolD pool cal m).length
    ∧ (pick_combo rnd pool cal m p c f).2
        = (score_combo (pick_combo rnd pool cal m p c f).1 cal p c f).2 := by
  have hP : ∀ (s : BestSt),
      ((List.range (triesFor (topPoolD pool cal m).length)).foldl
        (fun acc t => trialStep cal p c f acc (rnd t)) none) = some s →
      s.combo.length = min m (topPoolD pool cal m).length
        ∧ s.meta = (score_combo s.combo cal p c f).2 := by
    refine foldl_trialStep_invariant cal p c f rnd
      (fun s => s.combo.length = min m (topPoolD pool cal m).length
        ∧ s.meta = (score_combo s.combo cal p c f).2)
      _ (fun t _ => ⟨hs t, rfl⟩) none (by intro s h; cases h)
  have hSome : ((List.range (triesFor (topPoolD pool cal m).length)).foldl
      (fun acc t => trialStep cal p c f acc (rnd t)) none).isSome = true := by
    refine foldl_trialStep_isSome cal p c f rnd _ none (Or.inr ?_)
    have : triesFor (topPoolD pool cal m).length ≠ 0 := by
      rw [triesFor]; omega
    simpa [List.range_eq_nil]
  obtain ⟨b, hb⟩ := Option.isSome_iff_exists.mp hSome
  have hbP := hP b hb
  simp only [pick_combo]
  rw [hb]
  dsimp only
  by_cases h125 : 125 < |b.meta.K - cal|
  · rw [if_pos h125]
    have := refineLoop_invariant cal p c f
      (fun s => s.combo.length = min m (topPoolD pool cal m).length
        ∧ s.meta = (score_combo s.combo cal p c f).2)
      ((List.range 1500).map (fun t => rnd (triesFor (topPoolD pool cal m).length + t)))
      (by
        intro d hd
        obtain ⟨t, _, rfl⟩ := List.mem_map.mp hd
        exact ⟨hs _, rfl⟩)
      b hbP
    exact this
  · rw [if_neg h125]
    exact hbP

/-- The restricted pool keeps `max(10, ⌊0.8·n⌋)` of the pool's `n` items
(all of them when the pool is that small). -/
theorem topPoolD_length (pool : List MenuItem) (cal : ℤ) (m : ℕ) :
    (topPoolD pool cal m).length = min (max 10 (pool.length * 4 / 5)) pool.length := by
  simp [topPoolD, List.length_take, List.length_insertionSort]

/-- C2: for every list of picked items and every targets, `score_combo`
returns exactly
`|K − cal|/6 + max(0, p − P)·8.5 + 0.7·max(0, F − 1.25·f) + 0.3·max(0, C − 1.35·c)
 − 0.4·(distinct_chain_count − 1)`,
with `K,P,C,F` the sums of the picked items' calories/protein/carbs/fat and
`distinct_chain_count` the number of distinct chains among the picks. -/
theorem score_combo_closed_form (picks : List MenuItem) (cal p c f : ℤ) :
    (score_combo picks cal p c f).1 =
      |((picks.map MenuItem.K).sum : ℚ) - (cal : ℚ)| / 6
      + max 0 ((p : ℚ) - ((picks.map MenuItem.P).sum : ℚ)) * (85/10)
      + (7/10) * max 0 (((picks.map MenuItem.F).sum : ℚ) - (125/100) * (f : ℚ))
      + (3/10) * max 0 (((picks.map MenuItem.C).sum : ℚ) - (135/100) * (c : ℚ))
      + (-(4/10)) * (((picks.map MenuItem.chain).toFinset.card : ℚ) - 1) := by
  simp only [score_combo, List.card_toFinset]
  push_cast
  ring_nf

/-- C9: `calorie_goal_from_tdee` applies ×0.75 for `loss25`, ×1.00 for
`maintain`, ×1.10 for `gain10`, and treats any other (or missing) goal
keyword exactly as `loss25`. -/
theorem calorie_goal_cases (tdee : ℤ) (goal : Option String) :
    calorie_goal_from_tdee tdee (some "loss25") = pyRound ((tdee : ℚ) * (75/100))
    ∧ calorie_goal_from_tdee tdee (some "maintain") = pyRound ((tdee : ℚ) * 1)
    ∧ calorie_goal_from_tdee tdee (some "gain10") = pyRound ((tdee : ℚ) * (110/100))
    ∧ (goalNorm goal ≠ "maintain" → goalNorm goal ≠ "gain10" →
        calorie_goal_from_tdee tdee goal = pyRound ((tdee : ℚ) * (75/100))) := by
  refine ⟨rfl, by simp [mul_one]; rfl, rfl, ?_⟩
  intro h1 h2
  rw [calorie_goal_from_tdee]
  simp only [h1, h2, if_false]
  split_ifs <;> rfl

/-- Witness for C9 at `tdee = 2000` and the unknown goal keyword `bulk`. -/
theorem calorie_goal_cases_witness :
    goalNorm (some "bulk") ≠ "maintain" ∧ goalNorm (some "bulk") ≠ "gain10"
    ∧ calorie_goal_from_tdee 2000 (some "bulk") = pyRound ((2000 : ℚ) * (75/100)) :=
  ⟨by decide, by decide,
   (calorie_goal_cases 2000 (some "bulk")).2.2.2 (by decide) (by decide)⟩

/-- C10: on the empty combo (no items, hence zero distinct chains)
`score_combo` yields `cal/6 + 8.5·p + 0.4`: the variety term is a positive
`+0.4` penalty, since `−0.4·(0 − 1) = 0.4` — strictly worse than the zero
variety term of a single-chain combo. (Targets are taken nonnegative, as
the data model requires.) -/
theorem score_combo_empty (cal p c f : ℤ) (hcal : 0 ≤ cal) (hp : 0 ≤ p)
    (hc : 0 ≤ c) (hf : 0 ≤ f) :
    (score_combo [] cal p c f).1 = (cal : ℚ) / 6 + (85/10) * (p : ℚ) + 4/10 := by
  have hc2 : (-((c : ℚ) * (135/100))) ≤ 0 := by
    have : (0 : ℚ) ≤ (c : ℚ) := by exact_mod_cast hc
    linarith
  have hf2 : (-((f : ℚ) * (125/100))) ≤ 0 := by
    have : (0 : ℚ) ≤ (f : ℚ) := by exact_mod_cast hf
    linarith
  simp only [score_combo, List.map_nil, List.sum_nil, List.dedup_nil, List.length_nil,
    Int.cast_zero, zero_sub, abs_neg]
  rw [abs_of_nonneg (by exact_mod_cast hcal), max_eq_left hc2, max_eq_left hf2,
    max_eq_right (by omega : (0 : ℤ) ≤ p - 0)]
  push_cast
  ring

/-- Witness for C10 at targets 2000 kcal / 150 g protein / 200 g carb /
60 g fat. -/
theorem score_combo_empty_witness :
    (0 : ℤ) ≤ 2000 ∧ (0 : ℤ) ≤ 150 ∧ (0 : ℤ) ≤ 200 ∧ (0 : ℤ) ≤ 60
    ∧ (score_combo [] 2000 150 200 60).1 = (2000 : ℚ) / 6 + (85/10) * (150 : ℚ) + 4/10 :=
  ⟨by decide, by decide, by decide, by decide,
   score_combo_empty 2000 150 200 60 (by decide) (by decide) (by decide) (by decide)⟩

/-- C8: for a positive calorie total and any resolved protein target, the
macro split has `carb_g = round(remaining·0.5/4)` and
`fat_g = round(remaining·0.5/9)` for `remaining = calories − protein_g·4`,
and `protein_g·4 + carb_g·4 + fat_g·9` equals `calories` up to the rounding
error `4·½ + 9·½ = 6.5`. -/
theorem macro_targets_energy (cal : ℤ) (po : Option ℤ) (_h : 0 < cal) :
    (macro_targets cal po).2.1
        = pyRound ((((cal - (macro_targets cal po).1 * 4 : ℤ) : ℚ) * (5/10)) / 4)
    ∧ (macro_targets cal po).2.2
        = pyRound ((((cal - (macro_targets cal po).1 * 4 : ℤ) : ℚ) * (5/10)) / 9)
    ∧ |(((macro_targets cal po).1 * 4 + (macro_targets cal po).2.1 * 4
          + (macro_targets cal po).2.2 * 9 : ℤ) : ℚ) - (cal : ℚ)| ≤ 13/2 := by
  refine ⟨by cases po <;> rfl, by cases po <;> rfl, ?_⟩
  obtain ⟨p, hp⟩ : ∃ p, (macro_targets cal po).1 = p := ⟨_, rfl⟩
  have hcf : (macro_targets cal po).2.1
      = pyRound ((((cal - p * 4 : ℤ) : ℚ) * (5/10)) / 4)
      ∧ (macro_targets cal po).2.2
      = pyRound ((((cal - p * 4 : ℤ) : ℚ) * (5/10)) / 9) := by
    rw [← hp]; exact ⟨by cases po <;> rfl, by cases po <;> rfl⟩
  rw [hp, hcf.1, hcf.2]
  have hb1 := pyRound_abs_le ((((cal - p * 4 : ℤ) : ℚ) * (5/10)) / 4)
  have hb2 := pyRound_abs_le ((((cal - p * 4 : ℤ) : ℚ) * (5/10)) / 9)
  rw [abs_le] at hb1 hb2 ⊢
  push_cast at hb1 hb2 ⊢
  constructor <;> linarith

/-- Witness for C8 at `calories = 2000` with the default protein strategy. -/
theorem macro_targets_energy_witness :
    (0 : ℤ) < 2000
    ∧ ((macro_targets 2000 none).2.1
        = pyRound ((((2000 - (macro_targets 2000 none).1 * 4 : ℤ) : ℚ) * (5/10)) / 4)
      ∧ (macro_targets 2000 none).2.2
        = pyRound ((((2000 - (macro_targets 2000 none).1 * 4 : ℤ) : ℚ) * (5/10)) / 9)
      ∧ |(((macro_targets 2000 none).1 * 4 + (macro_targets 2000 none).2.1 * 4
            + (macro_targets 2000 none).2.2 * 9 : ℤ) : ℚ) - (2000 : ℚ)| ≤ 13/2) :=
  ⟨by decide, macro_targets_energy 2000 none (by decide)⟩

/-- With the default protein strategy, protein never eats more than the
whole calorie budget: `calories − 4·round(0.35·calories/4) ≥ 0` for
positive calories. -/
theorem default_protein_budget (cal : ℤ) (h : 0 < cal) :
    0 ≤ cal - pyRound ((35/100 : ℚ) * (cal : ℚ) / 4) * 4 := by
  rcases lt_or_le cal 2 with h1 | h2
  · have hc1 : cal = 1 := by omega
    subst hc1
    have : pyRound ((35/100 : ℚ) * ((1 : ℤ) : ℚ) / 4) = 0 := by
      rw [pyRound]
      norm_num
    rw [this]
    omega
  · have hb := pyRound_abs_le ((35/100 : ℚ) * (cal : ℚ) / 4)
    rw [abs_le] at hb
    have hcq : (2 : ℚ) ≤ (cal : ℚ) := by exact_mod_cast h2
    have : (-1 : ℚ) < ((cal - pyRound ((35/100 : ℚ) * (cal : ℚ) / 4) * 4 : ℤ) : ℚ) := by
      push_cast
      linarith
    have : (-1 : ℤ) < cal - pyRound ((35/100 : ℚ) * (cal : ℚ) / 4) * 4 := by
      exact_mod_cast this
    omega

/-- C6 (amended): provided the resolved calorie target is positive and any
explicit protein override `p` satisfies `0 ≤ p` and `4·p ≤ calories`, the
macro targets are all nonnegative. (Unconditionally the claim is false:
resolution passes explicit calorie overrides through unvalidated — see the
counterexample.) -/
theorem macro_targets_nonneg (cal : ℤ) (po : Option ℤ) (h : 0 < cal)
    (hp : ∀ p, po = some p → 0 ≤ p ∧ p * 4 ≤ cal) :
    0 ≤ (macro_targets cal po).1 ∧ 0 ≤ (macro_targets cal po).2.1
    ∧ 0 ≤ (macro_targets cal po).2.2 := by
  have hcq : (0 : ℚ) < (cal : ℚ) := by exact_mod_cast h
  have key : 0 ≤ (macro_targets cal po).1
      ∧ 0 ≤ cal - (macro_targets cal po).1 * 4 := by
    cases po with
    | none =>
      constructor
      · exact pyRound_nonneg _ (by positivity)
      · exact default_protein_budget cal h
    | some p =>
      obtain ⟨hp0, hp4⟩ := hp p rfl
      exact ⟨hp0, by simp [macro_targets]; omega⟩
  obtain ⟨hP, hRem⟩ := key
  have hRemQ : (0 : ℚ) ≤ ((cal - (macro_targets cal po).1 * 4 : ℤ) : ℚ) := by
    exact_mod_cast hRem
  refine ⟨hP, ?_, ?_⟩
  · have : (macro_targets cal po).2.1
        = pyRound ((((cal - (macro_targets cal po).1 * 4 : ℤ) : ℚ) * (5/10)) / 4) := by
      cases po <;> rfl
    rw [this]
    exact pyRound_nonneg _ (by positivity)
  · have : (macro_targets cal po).2.2
        = pyRound ((((cal - (macro_targets cal po).1 * 4 : ℤ) : ℚ) * (5/10)) / 9) := by
      cases po <;> rfl
    rw [this]
    exact pyRound_nonneg _ (by positivity)

/-- Witness for the amended C6 at `calories = 2000`, protein override 150 g. -/
theorem macro_targets_nonneg_witness :
    (0 : ℤ) < 2000
    ∧ (0 ≤ (macro_targets 2000 (some 150)).1 ∧ 0 ≤ (macro_targets 2000 (some 150)).2.1
       ∧ 0 ≤ (macro_targets 2000 (some 150)).2.2) :=
  ⟨by decide, macro_targets_nonneg 2000 (some 150) (by decide)
    (by intro p hp; cases hp; exact ⟨by decide, by decide⟩)⟩

/-- C4: `filter_menu` keeps exactly the items matching the case-insensitive
cuisine-prefix filter AND the case-insensitive chain-equality filter (each
active only when given), and falls back to the original unfiltered catalog
whenever that filtered result is empty. -/
theorem filter_menu_spec (menu : List MenuItem) (cuisine chain : Option String) :
    filter_menu menu cuisine chain =
      if (menu.filter (keepsItem cuisine chain)).isEmpty then menu
      else menu.filter (keepsItem cuisine chain) := by
  have key : (let out := menu
              let out := if truthy cuisine then
                           out.filter (fun m =>
                             strStartsWith (strLower m.cuisine) (strLower (cuisine.getD "")))
                         else out
              if truthy chain then
                out.filter (fun m => strLower m.chain == strLower (chain.getD ""))
              else out)
      = menu.filter (keepsItem cuisine chain) := by
    rcases cuisine with _ | cz <;> rcases chain with _ | ch
    · have hk : keepsItem none none = fun _ => true := funext fun m => rfl
      simp [truthy, hk]
    · by_cases hch : ch = ""
      · subst hch
        have hk : keepsItem none (some "") = fun _ => true := funext fun m => rfl
        simp [truthy, hk]
      · have hk : keepsItem none (some ch)
            = fun m => strLower m.chain == strLower ch :=
          funext fun m => by simp [keepsItem, hch]
        simp [truthy, hch, hk]
    · by_cases hcz : cz = ""
      · subst hcz
        have hk : keepsItem (some "") none = fun _ => true := funext fun m => rfl
        simp [truthy, hk]
      · have hk : keepsItem (some cz) none
            = fun m => strStartsWith (strLower m.cuisine) (strLower cz) :=
          funext fun m => by simp [keepsItem, hcz]
        simp [truthy, hcz, hk]
    · by_cases hcz : cz = "" <;> by_cases hch : ch = ""
      · subst hcz; subst hch
        have hk : keepsItem (some "") (some "") = fun _ => true := funext fun m => rfl
        simp [truthy, hk]
      · subst hcz
        have hk : keepsItem (some "") (some ch)
            = fun m => strLower m.chain == strLower ch :=
          funext fun m => by simp [keepsItem, hch]
        simp [truthy, hch, hk]
      · subst hch
        have hk : keepsItem (some cz) (some "")
            = fun m => strStartsWith (strLower m.cuisine) (strLower cz) :=
          funext fun m => by simp [keepsItem, hcz]
        simp [truthy, hcz, hk]
      · have hk : keepsItem (some cz) (some ch)
            = fun m => strStartsWith (strLower m.cuisine) (strLower cz)
                && (strLower m.chain == strLower ch) :=
          funext fun m => by simp [keepsItem, hcz, hch]
        simp [truthy, hcz, hch, hk, List.filter_filter, Bool.and_comm]
  rw [filter_menu]
  rw [key]

/-- C1 (amended): for every pool and `1 ≤ meals_per_day ≤ 10`, `pick_combo`
returns a combo of length exactly `min(meals_per_day, |pool|)`. (For
`meals_per_day > 10` the claim fails: draws come from the restricted pool,
which can be as small as `max(10, ⌊0.8·|pool|⌋)` — see the
counterexample.) -/
theorem pick_combo_length_min (rnd : ℕ → List MenuItem) (pool : List MenuItem)
    (cal : ℤ) (m : ℕ) (p c f : ℤ) (h1 : 1 ≤ m) (h2 : m ≤ 10)
    (hs : ∀ t, isSampleOf (rnd t) (topPoolD pool cal m)
      (min m (topPoolD pool cal m).length)) :
    (pick_combo rnd pool cal m p c f).1.length = min m pool.length := by
  have hlen := (pick_combo_spec rnd pool cal m p c f (fun t => (hs t).1)).1
  rw [hlen, topPoolD_length]
  omega

/-- A 12-item pool used to exercise the restricted-pool pruning. -/
def poolTwelve : List MenuItem :=
  [⟨"m01", "ch01", "Any", 100, 30, 40, 10⟩,
   ⟨"m02", "ch02", "Any", 200, 30, 40, 10⟩,
   ⟨"m03", "ch03", "Any", 300, 30, 40, 10⟩,
   ⟨"m04", "ch04", "Any", 400, 30, 40, 10⟩,
   ⟨"m05", "ch05", "Any", 500, 30, 40, 10⟩,
   ⟨"m06", "ch06", "Any", 600, 30, 40, 10⟩,
   ⟨"m07", "ch07", "Any", 700, 30, 40, 10⟩,
   ⟨"m08", "ch08", "Any", 800, 30, 40, 10⟩,
   ⟨"m09", "ch09", "Any", 900, 30, 40, 10⟩,
   ⟨"m10", "ch10", "Any", 1000, 30, 40, 10⟩,
   ⟨"m11", "ch11", "Any", 1100, 30, 40, 10⟩,
   ⟨"m12", "ch12", "Any", 1200, 30, 40, 10⟩]

/-- C1 counterexample: with the 12-item pool and `meals_per_day = 11`, every
draw stream samples from the 10-item restricted pool, so the returned combo
has 10 items, not `min(11, 12) = 11`. -/
theorem pick_combo_length_min_cex :
    (pick_combo (fun _ => topPoolD poolTwelve 2000 11) poolTwelve 2000 11 150 200 60).1.length
      ≠ min 11 poolTwelve.length := by
  have hT : (topPoolD poolTwelve 2000 11).length = 10 := by
    rw [topPoolD_length]
    rfl
  have hs : ∀ t : ℕ, ((fun _ : ℕ => topPoolD poolTwelve 2000 11) t).length
      = min 11 (topPoolD poolTwelve 2000 11).length := by
    intro t
    rw [hT]
    rfl
  have hlen := (pick_combo_spec (fun _ => topPoolD poolTwelve 2000 11)
    poolTwelve 2000 11 150 200 60 hs).1
  rw [hlen, hT]
  rw [show poolTwelve.length = 12 from rfl]
  decide

/-- Witness for the amended C1: 12-item pool, 4 meals per day, draws taken
as the first four restricted-pool items; the combo has `min(4, 12) = 4`
items. -/
theorem pick_combo_length_min_witness :
    (pick_combo (fun _ => (topPoolD poolTwelve 2000 4).take 4)
      poolTwelve 2000 4 150 200 60).1.length = min 4 poolTwelve.length := by
  have hT : (topPoolD poolTwelve 2000 4).length = 10 := by
    rw [topPoolD_length]
    rfl
  refine pick_combo_length_min _ _ _ _ _ _ _ (by decide) (by decide) ?_
  intro t
  constructor
  · rw [List.length_take, hT]
  · intro x hx
    exact List.take_subset _ _ hx

/-- On an empty pool every draw is empty, and `pick_combo` returns the empty
combo with zero totals (no failure). -/
theorem pick_combo_nil (rnd : ℕ → List MenuItem) (cal : ℤ) (m : ℕ) (p c f : ℤ)
    (h : ∀ t, rnd t = []) :
    pick_combo rnd [] cal m p c f = ([], ⟨0, 0, 0, 0⟩) := by
  have hTnil : topPoolD [] cal m = [] := rfl
  have hs : ∀ t, (rnd t).length = min m (topPoolD [] cal m).length := by
    intro t
    rw [h t, hTnil]
    simp
  obtain ⟨h1, h2⟩ := pick_combo_spec rnd [] cal m p c f hs
  rw [hTnil] at h1
  simp only [List.length_nil, Nat.min_zero] at h1
  have hcombo : (pick_combo rnd [] cal m p c f).1 = [] :=
    List.length_eq_zero.mp h1
  have hmeta : (pick_combo rnd [] cal m p c f).2 = ⟨0, 0, 0, 0⟩ := by
    rw [h2, hcombo]
    rfl
  exact Prod.ext hcombo hmeta

/-- The empty catalog filters to the empty pool. -/
theorem filter_menu_nil (cuisine chain : Option String) :
    filter_menu [] cuisine chain = [] := by
  simp [filter_menu]

/-- C3: on an empty pool `pick_combo` returns the empty combo with all-zero
totals, and end to end `generate_plan` on an empty catalog produces a plan
whose every day has an empty item list and zero totals; both are total
functions (no exception is modelled or needed). -/
theorem empty_catalog_plan (rnd1 : ℕ → List MenuItem) (rnd2 : ℕ → ℕ → List MenuItem)
    (cal : ℤ) (m days : ℕ) (p c f : ℤ) (protein : Option ℤ)
    (cuisine chain : Option String)
    (h1 : ∀ t, rnd1 t = []) (h2 : ∀ d t, rnd2 d t = []) :
    pick_combo rnd1 [] cal m p c f = ([], ⟨0, 0, 0, 0⟩)
    ∧ (generate_plan rnd2 [] cal cuisine chain days protein m).plan
        = List.replicate days (PlanDay.mk [] 0 0 0 0) := by
  refine ⟨pick_combo_nil rnd1 cal m p c f h1, ?_⟩
  simp only [generate_plan, filter_menu_nil]
  rw [List.eq_replicate_iff]
  constructor
  · simp
  · intro pd hpd
    obtain ⟨d, _, rfl⟩ := List.mem_map.mp hpd
    rw [pick_combo_nil (rnd2 d) cal m _ _ _ (h2 d)]

/-- Witness for C3: concrete empty draw streams, 2000 kcal targets, 4 meals,
3 days. -/
theorem empty_catalog_plan_witness :
    pick_combo (fun _ => []) [] 2000 4 150 200 60 = ([], ⟨0, 0, 0, 0⟩)
    ∧ (generate_plan (fun _ _ => []) [] 2000 none none 3 none 4).plan
        = List.replicate 3 (PlanDay.mk [] 0 0 0 0) :=
  empty_catalog_plan (fun _ => []) (fun _ _ => []) 2000 4 3 150 200 60 none none none
    (fun _ => rfl) (fun _ _ => rfl)

/-- C7 (amended): one step of the refinement loop. A draw that does not
strictly beat the current best is skipped (even if it lands within 125 kcal
of the target — the loop does NOT stop there); a strictly better draw
becomes the best, and the loop stops early exactly when that new best is
within 125 kcal of the target, ignoring all remaining draws. -/
theorem refineLoop_step (cal p c f : ℤ) (best : BestSt) (d : List MenuItem)
    (rest : List (List MenuItem)) :
    (¬ (score_combo d cal p c f).1 < best.score →
        refineLoop cal p c f best (d :: rest) = refineLoop cal p c f best rest)
    ∧ ((score_combo d cal p c f).1 < best.score →
        |(score_combo d cal p c f).2.K - cal| ≤ 125 →
        refineLoop cal p c f best (d :: rest)
          = ⟨(score_combo d cal p c f).1, d, (score_combo d cal p c f).2⟩)
    ∧ ((score_combo d cal p c f).1 < best.score →
        125 < |(score_combo d cal p c f).2.K - cal| →
        refineLoop cal p c f best (d :: rest)
          = refineLoop cal p c f
              ⟨(score_combo d cal p c f).1, d, (score_combo d cal p c f).2⟩ rest) := by
  refine ⟨?_, ?_, ?_⟩ <;> intro hlt
  · rw [refineLoop, if_neg hlt]
  · intro h125
    rw [refineLoop, if_pos hlt, if_pos h125]
  · intro h125
    rw [refineLoop, if_pos hlt, if_neg (not_le.mpr h125)]

/-- The pre-refinement best used in the C7 scenarios: a single 2000-kcal item
against a 1000-kcal / 100 g-protein target (score `1000/6 + 425`). -/
def bestA : BestSt :=
  ⟨(score_combo [⟨"refA", "chA", "Any", 2000, 50, 0, 0⟩] 1000 100 0 0).1,
   [⟨"refA", "chA", "Any", 2000, 50, 0, 0⟩],
   (score_combo [⟨"refA", "chA", "Any", 2000, 50, 0, 0⟩] 1000 100 0 0).2⟩

/-- A draw landing exactly on the calorie target but with zero protein:
within 125 kcal, yet scoring 850 — worse than `bestA`. -/
def drawOnTarget : List MenuItem := [⟨"refB", "chB", "Any", 1000, 0, 0, 0⟩]

/-- A draw 300 kcal off target with full protein: score 50 — better than
`bestA` but outside the 125-kcal window. -/
def drawOffTarget : List MenuItem := [⟨"refC", "chC", "Any", 1300, 100, 0, 0⟩]

/-- A draw 50 kcal off target with full protein: a strictly-improving draw
inside the 125-kcal window. -/
def drawNearTarget : List MenuItem := [⟨"refD", "chD", "Any", 1050, 100, 0, 0⟩]

/-- `bestA`'s score. -/
theorem bestA_score : bestA.score = 3550/6 := by
  simp only [bestA, score_combo]
  norm_num [List.dedup]

/-- Score of the on-target, zero-protein draw. -/
theorem drawOnTarget_score : (score_combo drawOnTarget 1000 100 0 0).1 = 850 := by
  simp only [score_combo, drawOnTarget]
  norm_num [List.dedup]

/-- Score of the off-target, full-protein draw. -/
theorem drawOffTarget_score : (score_combo drawOffTarget 1000 100 0 0).1 = 50 := by
  simp only [score_combo, drawOffTarget]
  norm_num [List.dedup]

/-- Score of the near-target, full-protein draw. -/
theorem drawNearTarget_score : (score_combo drawNearTarget 1000 100 0 0).1 = 25/3 := by
  simp only [score_combo, drawNearTarget]
  norm_num [List.dedup]

/-- C7 counterexample: the refinement loop does NOT stop the moment a draw
lands within 125 kcal of target. `drawOnTarget` lands exactly on target
(within 125), yet the loop keeps going and a later draw changes the result:
processing `[drawOnTarget, drawOffTarget]` gives a different best than
processing `[drawOnTarget]` alone. -/
theorem refineLoop_early_exit_cex :
    |(score_combo drawOnTarget 1000 100 0 0).2.K - 1000| ≤ 125
    ∧ refineLoop 1000 100 0 0 bestA [drawOnTarget, drawOffTarget]
        ≠ refineLoop 1000 100 0 0 bestA [drawOnTarget] := by
  have hB : ¬ (score_combo drawOnTarget 1000 100 0 0).1 < bestA.score := by
    rw [drawOnTarget_score, bestA_score]
    norm_num
  have hC : (score_combo drawOffTarget 1000 100 0 0).1 < bestA.score := by
    rw [drawOffTarget_score, bestA_score]
    norm_num
  have hCK : ¬ |(score_combo drawOffTarget 1000 100 0 0).2.K - 1000| ≤ 125 := by
    decide
  have h1 : refineLoop 1000 100 0 0 bestA [drawOnTarget, drawOffTarget]
      = ⟨(score_combo drawOffTarget 1000 100 0 0).1, drawOffTarget,
         (score_combo drawOffTarget 1000 100 0 0).2⟩ := by
    rw [refineLoop, if_neg hB, refineLoop, if_pos hC, if_neg hCK, refineLoop]
  have h2 : refineLoop 1000 100 0 0 bestA [drawOnTarget] = bestA := by
    rw [refineLoop, if_neg hB, refineLoop]
  refine ⟨by decide, ?_⟩
  rw [h1, h2]
  intro heq
  have hcombo := congrArg BestSt.combo heq
  simp only [bestA] at hcombo
  exact absurd hcombo (by decide)

/-- Witness for the amended C7: a strictly-improving draw within the 125-kcal
window ends the loop at once with that draw installed as best. -/
theorem refineLoop_step_witness :
    (score_combo drawNearTarget 1000 100 0 0).1 < bestA.score
    ∧ |(score_combo drawNearTarget 1000 100 0 0).2.K - 1000| ≤ 125
    ∧ refineLoop 1000 100 0 0 bestA [drawNearTarget]
        = ⟨(score_combo drawNearTarget 1000 100 0 0).1, drawNearTarget,
           (score_combo drawNearTarget 1000 100 0 0).2⟩ := by
  have hlt : (score_combo drawNearTarget 1000 100 0 0).1 < bestA.score := by
    rw [drawNearTarget_score, bestA_score]
    norm_num
  have h125 : |(score_combo drawNearTarget 1000 100 0 0).2.K - 1000| ≤ 125 := by
    decide
  exact ⟨hlt, h125,
    (refineLoop_step 1000 100 0 0 bestA drawNearTarget []).2.1 hlt h125⟩

/-- Digits-to-number accumulator for the numeric parsers. -/
def digitsVal (l : List Char) : ℕ :=
  l.foldl (fun a ch => a * 10 + (ch.toNat - 48)) 0

/-- Python `int(str)`: optional sign followed by digits (whitespace and
underscore forms are not modelled — no claim depends on them); anything
else raises `ValueError`, modelled as `none`. -/
def pyInt? (s : String) : Option ℤ :=
  let core : List Char → Option ℤ := fun l =>
    if l ≠ [] && l.all Char.isDigit then some (digitsVal l) else none
  match s.data with
  | '-' :: rest => (core rest).map (fun n => -n)
  | '+' :: rest => core rest
  | l => core l

/-- Python `float(str)` for the plain decimal forms `[±]digits[.digits]`
(exponents, `inf`/`nan` and whitespace are not modelled — no claim depends
on them); anything else raises `ValueError`, modelled as `none`. -/
def pyFloat? (s : String) : Option ℚ :=
  let core : List Char → Option ℚ := fun l =>
    let ip := l.takeWhile (fun ch => ch ≠ '.')
    let rest := l.dropWhile (fun ch => ch ≠ '.')
    match rest with
    | [] => if ip ≠ [] && ip.all Char.isDigit then some ((digitsVal ip : ℚ)) else none
    | _ :: fp =>
      if fp.all (fun ch => ch ≠ '.') then
        if (ip ≠ [] || fp ≠ []) && ip.all Char.isDigit && fp.all Char.isDigit then
          some ((digitsVal ip : ℚ) + (digitsVal fp : ℚ) / (10 : ℚ) ^ fp.length)
        else none
      else none
  match s.data with
  | '-' :: rest => (core rest).map (fun q => -q)
  | '+' :: rest => core rest
  | l => core l

/-- The raw request-parameter map consumed by `_resolve_from_request`
(each field a query-string value, absent = `None`). -/
structure Request where
  calories : Option String
  tdee : Option String
  goal : Option String
  sex : Option String
  weight_lb : Option String
  height_in : Option String
  age : Option String
  activity : Option String
  cuisine : Option String
  chain : Option String
  days : Option String
  meals_per_day : Option String
deriving DecidableEq, Repr

/-- Everything `_resolve_from_request` computes before handing off to
`generate_plan`: the resolved calorie target, filters, day count, protein
override, meals per day and the human-readable resolution note. -/
structure ResolvedArgs where
  calories : ℤ
  cuisine : Option String
  chain : Option String
  days : ℤ
  protein_g : Option ℤ
  meals_per_day : ℤ
  note : String
deriving DecidableEq, Repr

/-- The TDEE sub-resolution inside the protected block of
`_resolve_from_request` (lines 682-687): explicit `tdee` parameter, else
full body stats through `calc_tdee_from_stats`, else the fixed fallback
2000 with its note. `none` = a parse raised inside the `try`. -/
def resolveTdee (req : Request) : Option (ℤ × Option String) :=
  if truthy req.tdee then
    (pyInt? (req.tdee.getD "")).map (fun t => (t, none))
  else if truthy req.sex && truthy req.weight_lb && truthy req.height_in
      && truthy req.age then
    match pyFloat? (req.weight_lb.getD ""), pyFloat? (req.height_in.getD ""),
        pyInt? (req.age.getD "") with
    | some w, some h, some a =>
      some (calc_tdee_from_stats req.sex w h a (some (req.activity.getD "moderate")), none)
    | _, _, _ => none
  else some (2000, some "Fallback: TDEE defaulted to 2000")

/-- The calorie resolution of `_resolve_from_request` (lines 677-691):
explicit calories win; otherwise TDEE plus goal multiplier; ANY parse
failure inside the `try` block falls back to 2000 kcal with the
"Invalid inputs" note. (Note texts are abbreviated ASCII renderings of the
source's f-strings.) -/
def resolveCaloriesNote (req : Request) : ℤ × String :=
  let attempt : Option (ℤ × String) :=
    if truthy req.calories then
      (pyInt? (req.calories.getD "")).map
        (fun n => (n, "Using explicit calories = " ++ toString n))
    else
      (resolveTdee req).map (fun tn =>
        let goal := req.goal.getD "loss25"
        let k := calorie_goal_from_tdee tn.1 (some goal)
        (k, tn.2.getD ("TDEE " ++ toString tn.1 ++ " with goal " ++ goal
              ++ " gives " ++ toString k ++ " kcal/day")))
  match attempt with
  | some r => r
  | none => (2000, "Invalid inputs; defaulted to 2000 kcal")

/-- The protein resolution of `_resolve_from_request` (lines 694-698):
`round(float(weight_lb))` when a truthy, parseable, nonzero weight is given;
`None` otherwise (its `try` swallows parse errors). -/
def resolveProtein (req : Request) : Option ℤ :=
  match req.weight_lb with
  | none => none
  | some s =>
    if s = "" then none
    else match pyFloat? s with
         | none => none
         | some bw => if bw = 0 then none else some (pyRound bw)

/-- `_resolve_from_request` (lines 663-702) up to the `generate_plan` call.
`days = int(req.get("days", 3))` at line 667 runs OUTSIDE every
`try`/`except`, so a malformed `days` parameter propagates as an uncaught
`ValueError` — modelled as `Except.error ()`. Every other numeric parse is
protected and degrades to a default. -/
def resolveFromRequest (req : Request) : Except Unit ResolvedArgs :=
  let cuisine := if truthy req.cuisine then req.cuisine else none
  let chain := if truthy req.chain then req.chain else none
  match (match req.days with
         | none => some (3 : ℤ)
         | some s => pyInt? s) with
  | none => Except.error ()
  | some days =>
    let meals : ℤ :=
      let m0 : ℤ :=
        match req.meals_per_day with
        | none => 4
        | some s => (pyInt? s).getD 4
      if m0 = 2 ∨ m0 = 3 ∨ m0 = 4 then m0 else 4
    let cn := resolveCaloriesNote req
    Except.ok ⟨cn.1, cuisine, chain, days, resolveProtein req, meals, cn.2⟩

/-- C5: target resolution is NOT exception-free. A request whose only
parameter is `days=abc` makes `_resolve_from_request` raise an uncaught
`ValueError` from `int("abc")` (line 667, outside the `try`), instead of
falling back to 2000 kcal: the resolution aborts with an error. -/
theorem resolve_days_uncaught :
    resolveFromRequest
      ⟨none, none, none, none, none, none, none, none, none, none, some "abc", none⟩
      = Except.error () := rfl

/-- C6 counterexample: an explicit calorie override of `-100` flows through
resolution unvalidated — the resolved calorie target is `-100`, violating
`Targets.calories > 0`. -/
theorem resolve_negative_calories_cex :
    (resolveFromRequest
      ⟨some "-100", none, none, none, none, none, none, none, none, none, none, none⟩).map
        ResolvedArgs.calories = Except.ok (-100)
    ∧ ¬ ((0 : ℤ) < -100) :=
  ⟨rfl, by decide⟩
